import Mathlib

/-!
A shallow embedding of the `puppeteer-page-pool` package
(`src/index.js`, with the variant module `src/unnamed/part_000`).

The package wraps `generic-pool` around Puppeteer pages:
a `PagePool` instance holds `browser`, `options` and `pool` fields;
`launch()` starts the browser and builds the pool from the factory
`Helpers.poolFactory` (`create` / `destroy` / `validate`);
`process(handler, ...args)` borrows a page with `pool.use`, runs the
handler and releases the page; `destroy()` drains and clears the pool,
closes the browser and nulls the state.

Modelling conventions:
* Asynchronous functions that can reject are embedded as functions into
  `Except String _`; a `.catch`/`try` in the source appears as a `match`
  on such a value, so `Except.ok` results state that no rejection
  escapes the function.
* `Helpers.debug` calls are collected as a `List Diag` of structured
  diagnostics in the order they are emitted.
* External outcomes the environment decides (whether `browser.newPage()`
  or `puppeteer.launch()` succeeds, which page the pool lends, what a
  user hook does) are explicit parameters.
* `generic-pool` is an external npm dependency; its `use` operation and
  its bounded acquire/release discipline are modelled from the spec and
  marked as such in their doc comments.
-/

/-- Structured diagnostics, one constructor per `Helpers.debug` message of
`src/index.js` that the embedded code can emit. -/
inductive Diag where
  | createPageError
  | pageIsCreated
  | onPageCreatedError
  | onBeforePageDestroyError
  | pageIsDestroyed
  | onValidateError
  | poolIsClosed
  | browserIsClosed
  | browserIsCreated
  | browserCreateError
  | poolIsCreated
  | poolIsNotCreated
  | poolNotFound
  | handlerNotFunction
  | processError
deriving DecidableEq, Repr

/-- A JavaScript value, distinguished exactly as far as the pool's control
flow inspects one: `typeof`, truthiness, `Array.isArray`, and identity of
object-like values (modelled by a numeric id; `vObj 0` denotes a fresh
empty object literal). -/
inductive JSVal where
  | vUndefined
  | vNull
  | vBool (b : Bool)
  | vNum (n : Int)
  | vStr (s : String)
  | vObj (id : Nat)
  | vArr (id : Nat)
  | vFun (id : Nat)
deriving DecidableEq, Repr

/-- JavaScript `typeof`. -/
def jsTypeof : JSVal → String
  | JSVal.vUndefined => "undefined"
  | JSVal.vNull => "object"
  | JSVal.vBool _ => "boolean"
  | JSVal.vNum _ => "number"
  | JSVal.vStr _ => "string"
  | JSVal.vObj _ => "object"
  | JSVal.vArr _ => "object"
  | JSVal.vFun _ => "function"

/-- JavaScript truthiness (`!!v`). -/
def jsTruthy : JSVal → Bool
  | JSVal.vUndefined => false
  | JSVal.vNull => false
  | JSVal.vBool b => b
  | JSVal.vNum n => n != 0
  | JSVal.vStr s => s != ""
  | JSVal.vObj _ => true
  | JSVal.vArr _ => true
  | JSVal.vFun _ => true

/-- JavaScript `Array.isArray`. -/
def jsIsArray : JSVal → Bool
  | JSVal.vArr _ => true
  | _ => false

/-- Whether a JavaScript value is a boolean. -/
def jsIsBool : JSVal → Bool
  | JSVal.vBool _ => true
  | _ => false

/-- A Puppeteer page handle: an identity plus its open/closed status
(`page.isClosed()` reads the `closed` field). -/
structure Page where
  id : Nat
  closed : Bool
deriving DecidableEq, Repr

/-- A Puppeteer browser handle. -/
structure Browser where
  id : Nat
deriving DecidableEq, Repr

/-- A handle to the `generic-pool` object stored in `this.pool`. -/
structure PoolHandle where
  id : Nat
deriving DecidableEq, Repr

/-- The hook slots read from `this.options` by the pool factory.  A slot is
`none` when the option is absent or fails the `typeof === 'function'`
check, and `some f` when it is a function; invoking the hook on a page
either completes with a JavaScript value (`Except.ok`) or
throws/rejects (`Except.error`). -/
structure Opts where
  onPageCreated : Option (Page → Except String JSVal)
  onBeforePageDestroy : Option (Page → Except String JSVal)
  onValidate : Option (Page → Except String JSVal)

/-- Result of one factory `create` call: the value returned to the pool
(`none` embeds the falsy `undefined` produced when `newPage` rejected)
and the diagnostics emitted along the way. -/
structure CreateTrace where
  result : Option Page
  diags : List Diag
deriving Repr

/-- Effects of one factory `destroy` call: whether the hook slot was
invoked, whether `page.close()` was called, and the diagnostics. -/
structure DestroyTrace where
  hookCalled : Bool
  closeCalled : Bool
  diags : List Diag
deriving DecidableEq, Repr

/-- `Helpers.poolFactory.create` from `src/index.js` (lines 48-62).
`mint` is the outcome of `this.browser.newPage()`: its rejection is
caught by the `.catch`, which logs and yields `undefined`, so the
function itself never rejects — hence the `Except.ok` on every path.
A failing `onPageCreated` hook is caught, logged, and the page is still
returned.  (The `src/unnamed/part_000` variant only adds an extra
`onPageCreated done` debug line on hook success.) -/
def poolFactory.create (opts : Opts) (mint : Except String Page) : Except String CreateTrace :=
  match mint with
  | Except.error _ =>
      Except.ok { result := none, diags := [Diag.createPageError] }
  | Except.ok page =>
      match opts.onPageCreated with
      | none => Except.ok { result := some page, diags := [Diag.pageIsCreated] }
      | some hook =>
          match hook page with
          | Except.ok _ =>
              Except.ok { result := some page, diags := [Diag.pageIsCreated] }
          | Except.error _ =>
              Except.ok { result := some page,
                          diags := [Diag.pageIsCreated, Diag.onPageCreatedError] }

/-- `Helpers.poolFactory.destroy` from `src/index.js` (lines 63-78).
With an absent page the body is skipped entirely.  With a present page
the `onBeforePageDestroy` hook runs first inside a `try`/`catch` (its
failure only logs), `page.close()` runs only when `!page.isClosed()`,
and `page is destroyed` is logged at the end of the block.  (The
`src/unnamed/part_000` variant names the hook `onPageDestroy` and adds a
debug line on hook success; the control flow is identical.) -/
def poolFactory.destroy (opts : Opts) (page : Option Page) : Except String DestroyTrace :=
  match page with
  | none => Except.ok { hookCalled := false, closeCalled := false, diags := [] }
  | some p =>
      let hookDiags : List Diag :=
        match opts.onBeforePageDestroy with
        | none => []
        | some hook =>
            match hook p with
            | Except.ok _ => []
            | Except.error _ => [Diag.onBeforePageDestroyError]
      Except.ok { hookCalled := opts.onBeforePageDestroy.isSome,
                  closeCalled := !p.closed,
                  diags := hookDiags ++ [Diag.pageIsDestroyed] }

/-- `Helpers.poolFactory.validate` from `src/index.js` (lines 79-94).
`response` starts as `false`; with a present page and a configured
`onValidate` hook the hook's completed value is assigned to `response`
unchanged (there is no boolean coercion), while a hook failure is caught
and logged, leaving `response` at `false`; with a present page and no
hook `response` becomes `true`.  Returns the resolved `response`
together with the diagnostics. -/
def poolFactory.validate (opts : Opts) (page : Option Page) : JSVal × List Diag :=
  match page with
  | none => (JSVal.vBool false, [])
  | some p =>
      match opts.onValidate with
      | none => (JSVal.vBool true, [])
      | some hook =>
          match hook p with
          | Except.ok v => (v, [])
          | Except.error _ => (JSVal.vBool false, [Diag.onValidateError])

/-- The mutable fields of a `PagePool` instance.  `options` is an
`Option` because `destroy()` assigns `this.options = null`; while the
instance is usable it holds the structured hook slots. -/
structure PState where
  browser : Option Browser
  options : Option Opts
  pool : Option PoolHandle

/-- The structured-level view of `new PagePool(options)` (src/index.js
lines 243-248): a fresh instance has `browser = null`, `pool = null` and
the given options. -/
def PagePool.mkState (opts : Opts) : PState :=
  { browser := none, options := some opts, pool := none }

/-- The three fields of a freshly constructed `PagePool`, at the level of
raw JavaScript values (for the constructor, which may receive any
argument). -/
structure ConstructorResult where
  browser : JSVal
  options : JSVal
  pool : JSVal
deriving DecidableEq, Repr

/-- The `PagePool` constructor (src/index.js lines 243-248) on an
arbitrary JavaScript argument.  The default parameter `options = {}`
applies only to `undefined`; then
`typeof (options) === 'object' && !!options && !Array.isArray(options)`
selects between the argument and a fresh `{}` (denoted `vObj 0`). -/
def PagePool.construct (arg : JSVal) : ConstructorResult :=
  let options := if arg = JSVal.vUndefined then JSVal.vObj 0 else arg
  { browser := JSVal.vNull
    options := if jsTypeof options == "object" && jsTruthy options && !jsIsArray options
               then options else JSVal.vObj 0
    pool := JSVal.vNull }

/-- Teardown side effects of `PagePool.destroy()`, in emission order. -/
inductive TeardownEv where
  | poolDrain
  | poolClear
  | browserClose
deriving DecidableEq, Repr

/-- Trace of one `PagePool.destroy()` call. -/
structure DestroyMethodTrace where
  events : List TeardownEv
  diags : List Diag
deriving DecidableEq, Repr

/-- `PagePool.destroy` (src/index.js lines 259-273): drain and clear the
pool when one exists (logging `pool is closed`), close the browser when
one exists (logging `browser is closed`), null all three fields, and
return `null`. -/
def PagePool.destroy (s : PState) : PState × DestroyMethodTrace × JSVal :=
  let poolPart : DestroyMethodTrace :=
    match s.pool with
    | some _ => { events := [TeardownEv.poolDrain, TeardownEv.poolClear],
                  diags := [Diag.poolIsClosed] }
    | none => { events := [], diags := [] }
  let browserPart : DestroyMethodTrace :=
    match s.browser with
    | some _ => { events := [TeardownEv.browserClose], diags := [Diag.browserIsClosed] }
    | none => { events := [], diags := [] }
  ({ browser := none, options := none, pool := none },
   { events := poolPart.events ++ browserPart.events,
     diags := poolPart.diags ++ browserPart.diags },
   JSVal.vNull)

/-- `PagePool.launch` from `src/index.js` (lines 282-305).
`launchResult` is the outcome of `puppeteer.launch(puppeteerOptions)`;
there is no `.catch` on it, so a rejection propagates out of `launch`
before `this.browser` is assigned — embedded as `Except.error`.  On
success the browser is stored, `Helpers.createPool` builds the pool
(`newPool`), and the truthy-pool branch registers the error listeners. -/
def PagePool.launch (s : PState) (launchResult : Except String Browser)
    (newPool : PoolHandle) : Except String (PState × List Diag) :=
  match launchResult with
  | Except.error e => Except.error e
  | Except.ok b =>
      Except.ok ({ browser := some b, options := s.options, pool := some newPool },
                 [Diag.browserIsCreated, Diag.poolIsCreated])

/-- `PagePool.launch` from the `src/unnamed/part_000` variant (lines
328-356).  There `puppeteer.launch(...)` carries a `.catch` that logs
`browser create error` and yields `undefined`, so `this.browser` becomes
falsy, the pool is only constructed under `if (this.browser)`, and the
`else` branch logs `pool is not created`; the method itself never
rejects. -/
def PagePool.launchAlt (s : PState) (launchResult : Except String Browser)
    (newPool : PoolHandle) : Except String (PState × List Diag) :=
  match launchResult with
  | Except.error _ =>
      let s1 : PState := { browser := none, options := s.options, pool := s.pool }
      match s1.pool with
      | some _ => Except.ok (s1, [Diag.browserCreateError, Diag.poolIsCreated])
      | none => Except.ok (s1, [Diag.browserCreateError, Diag.poolIsNotCreated])
  | Except.ok b =>
      Except.ok ({ browser := some b, options := s.options, pool := some newPool },
                 [Diag.browserIsCreated, Diag.poolIsCreated])

/-- One argument of a handler invocation: the borrowed page, an ordinary
value from `...args`, or the pool handle `this.pool`. -/
inductive HArg where
  | page (p : Page)
  | val (v : JSVal)
  | poolRef (h : PoolHandle)
deriving DecidableEq, Repr

/-- The `handler` argument of `process`: either a value failing the
`typeof (handler) !== 'function'` check, or a function from its argument
list to a completed value or a thrown/rejected error. -/
inductive HandlerSlot where
  | notFunction
  | fn (f : List HArg → Except String JSVal)

/-- Trace of one `pool.use(fn)` call: the pages `fn` was invoked on,
whether the resource was released back, and `fn`'s outcome. -/
structure UseTrace where
  usedWith : List Page
  released : Bool
  result : Except String JSVal

/-- Modelled from the spec: `generic-pool`'s `pool.use` (an external npm
dependency, not under `src/`).  Per the spec's borrow-use-release
contract it acquires a Resource, invokes the callback exactly once with
it, then always releases the Resource back whether the callback
completes normally or fails, and propagates the callback's outcome to
the promise `use` returns.  `acquired` is the page the pool lends. -/
def Pool.use (acquired : Page) (fn : Page → Except String JSVal) : UseTrace :=
  { usedWith := [acquired], released := true, result := fn acquired }

/-- Trace of one `PagePool.process` call. -/
structure ProcessTrace where
  diags : List Diag
  calls : List (List HArg)
  acquired : Bool
  released : Bool

/-- `PagePool.process` (src/index.js lines 331-340).  Without a pool it
only logs `pool is not found...`; with a pool but a non-function handler
it only logs `handler is not a function`; otherwise it runs
`this.pool.use(page => handler(page, ...args, this.pool))` and its
`.catch` turns a rejection (of the handler or of the borrow) into a
`process error` diagnostic, so `process` itself never rejects.  `page`
is the page the pool lends for this use. -/
def PagePool.process (s : PState) (handler : HandlerSlot) (args : List JSVal)
    (page : Page) : Except String ProcessTrace :=
  match s.pool with
  | none =>
      Except.ok { diags := [Diag.poolNotFound], calls := [],
                  acquired := false, released := false }
  | some ph =>
      match handler with
      | HandlerSlot.notFunction =>
          Except.ok { diags := [Diag.handlerNotFunction], calls := [],
                      acquired := false, released := false }
      | HandlerSlot.fn f =>
          let u := Pool.use page
            (fun p => f (HArg.page p :: (args.map HArg.val ++ [HArg.poolRef ph])))
          let calls := u.usedWith.map
            (fun p => HArg.page p :: (args.map HArg.val ++ [HArg.poolRef ph]))
          match u.result with
          | Except.error _ =>
              Except.ok { diags := [Diag.processError], calls := calls,
                          acquired := true, released := u.released }
          | Except.ok _ =>
              Except.ok { diags := [], calls := calls,
                          acquired := true, released := u.released }

/-- Options with no hook configured. -/
def noHooks : Opts :=
  { onPageCreated := none, onBeforePageDestroy := none, onValidate := none }

/-- A concrete open page. -/
def samplePage : Page := { id := 0, closed := false }

/-- A concrete launched instance (browser and pool present). -/
def launchedState : PState :=
  { browser := some { id := 0 }, options := some noHooks, pool := some { id := 7 } }

/-- Options whose `onValidate` hook completes with the number `7`. -/
def validateNum7Opts : Opts :=
  { noHooks with onValidate := some (fun _ => Except.ok (JSVal.vNum 7)) }

/-- Options whose `onValidate` hook completes with `true`. -/
def validateTrueOpts : Opts :=
  { noHooks with onValidate := some (fun _ => Except.ok (JSVal.vBool true)) }

/-- Options whose `onValidate` hook throws. -/
def throwingValidateOpts : Opts :=
  { noHooks with onValidate := some (fun _ => Except.error "boom") }

/-- Options whose `onPageCreated` hook throws. -/
def throwingCreateOpts : Opts :=
  { noHooks with onPageCreated := some (fun _ => Except.error "boom") }

/-- Options whose `onBeforePageDestroy` hook throws. -/
def throwingDestroyOpts : Opts :=
  { noHooks with onBeforePageDestroy := some (fun _ => Except.error "boom") }

/-- A handler that always rejects. -/
def failingHandler : List HArg → Except String JSVal := fun _ => Except.error "handler boom"

/-- Counters of the pool engine's admission state: configured maximum,
currently borrowed resources, idle resources, and queued borrow
requests. -/
structure PoolSt where
  max : Nat
  borrowed : Nat
  idle : Nat
  waiting : Nat
deriving DecidableEq, Repr

/-- A pool-facing operation: a borrow request or a return. -/
inductive PoolOp where
  | acquire
  | release
deriving DecidableEq, Repr

/-- Modelled from the spec: the bounded admission control of the Pool
Engine (`generic-pool`, the external npm dependency that
`Helpers.createPool` instantiates with `poolOptions` at src/index.js
lines 292-296).  `acquire` lends an idle resource when one exists,
creates a fresh one while the live count is below the configured
maximum, and otherwise enqueues the request; `release` hands the
resource directly to the first waiter when the queue is nonempty and
otherwise returns it to the idle set. -/
def PoolSt.step (s : PoolSt) : PoolOp → PoolSt
  | PoolOp.acquire =>
      if 0 < s.idle then { s with borrowed := s.borrowed + 1, idle := s.idle - 1 }
      else if s.borrowed + s.idle < s.max then { s with borrowed := s.borrowed + 1 }
      else { s with waiting := s.waiting + 1 }
  | PoolOp.release =>
      if s.borrowed = 0 then s
      else if 0 < s.waiting then { s with waiting := s.waiting - 1 }
      else { s with borrowed := s.borrowed - 1, idle := s.idle + 1 }

/-- Run a sequence of pool operations. -/
def PoolSt.run (s : PoolSt) (ops : List PoolOp) : PoolSt :=
  ops.foldl PoolSt.step s

/-- A freshly created pool with maximum `m`. -/
def PoolSt.mk0 (m : Nat) : PoolSt :=
  { max := m, borrowed := 0, idle := 0, waiting := 0 }

/-- The pool invariant: live resources (borrowed plus idle) never exceed
the configured maximum. -/
def PoolSt.Inv (s : PoolSt) : Prop :=
  s.borrowed + s.idle ≤ s.max

theorem PoolSt.step_max (s : PoolSt) (op : PoolOp) : (s.step op).max = s.max := by
  cases op <;> simp only [PoolSt.step] <;> split_ifs <;> rfl

theorem PoolSt.step_inv {s : PoolSt} (op : PoolOp) (h : s.Inv) : (s.step op).Inv := by
  cases op <;> simp only [PoolSt.step, PoolSt.Inv] at h ⊢ <;> split_ifs <;> simp_all <;> omega

theorem PoolSt.run_inv (ops : List PoolOp) :
    ∀ s : PoolSt, s.Inv → (s.run ops).Inv := by
  induction ops with
  | nil => intro s h; simpa [PoolSt.run] using h
  | cons op rest ih =>
      intro s h
      simpa [PoolSt.run, List.foldl] using ih (s.step op) (PoolSt.step_inv op h)

theorem PoolSt.run_max (ops : List PoolOp) :
    ∀ s : PoolSt, (s.run ops).max = s.max := by
  induction ops with
  | nil => intro s; rfl
  | cons op rest ih =>
      intro s
      have h1 := ih (s.step op)
      have h2 := PoolSt.step_max s op
      simpa [PoolSt.run, List.foldl, h2] using h1

/-- C1: with a launched pool and a callable handler, `process` invokes the
handler exactly once, with the acquired page as first argument, the given
args in order, and the pool handle as final argument; the page is
released back to the pool whether the handler completes normally or
fails; a handler failure is reported as a `process error` diagnostic and
is never re-raised to the caller of `process` (the call returns
`Except.ok`). -/
theorem c1_process_invokes_once_and_always_releases
    (s : PState) (ph : PoolHandle) (f : List HArg → Except String JSVal)
    (args : List JSVal) (page : Page) (hp : s.pool = some ph) :
    PagePool.process s (HandlerSlot.fn f) args page =
      Except.ok
        { diags := match f (HArg.page page :: (args.map HArg.val ++ [HArg.poolRef ph])) with
                   | Except.error _ => [Diag.processError]
                   | Except.ok _ => []
          calls := [HArg.page page :: (args.map HArg.val ++ [HArg.poolRef ph])]
          acquired := true
          released := true } := by
  simp only [PagePool.process, hp, Pool.use, List.map_cons, List.map_nil]
  cases f (HArg.page page :: (args.map HArg.val ++ [HArg.poolRef ph])) <;> rfl

/-- C1 witness: a concrete launched pool and a rejecting handler. -/
theorem c1_witness :
    PagePool.process launchedState (HandlerSlot.fn failingHandler) [JSVal.vNum 1] samplePage =
      Except.ok
        { diags := [Diag.processError]
          calls := [[HArg.page samplePage, HArg.val (JSVal.vNum 1), HArg.poolRef { id := 7 }]]
          acquired := true
          released := true } := by
  have h := c1_process_invokes_once_and_always_releases launchedState { id := 7 }
    failingHandler [JSVal.vNum 1] samplePage rfl
  simpa [failingHandler] using h

/-- C2 counterexample: in `src/index.js` (lines 282-305) there is no catch
on `puppeteer.launch(puppeteerOptions)`, so when the browser launch fails
`launch()` rejects to its caller instead of returning normally. -/
theorem c2_counterexample_launch_raises :
    PagePool.launch (PagePool.mkState noHooks) (Except.error "boom") { id := 0 } =
      Except.error "boom" := rfl

/-- C2 (amended): when the browser launch fails, the pool is never
constructed (`pool` stays `null`) and every subsequent `process` call
reports a `pool is not found` diagnostic and returns without effect
instead of throwing, in both variants; the `src/unnamed/part_000`
variant's `launch` additionally catches the failure and does not raise,
while the `src/index.js` variant's `launch` re-raises the browser-launch
failure to its caller. -/
theorem c2_amended_launch_failure_failsoft
    (s : PState) (e : String) (np : PoolHandle) (handler : HandlerSlot)
    (args : List JSVal) (page : Page) (hpool : s.pool = none) :
    PagePool.launchAlt s (Except.error e) np =
      Except.ok ({ browser := none, options := s.options, pool := none },
                 [Diag.browserCreateError, Diag.poolIsNotCreated]) ∧
    PagePool.process { browser := none, options := s.options, pool := none }
        handler args page =
      Except.ok { diags := [Diag.poolNotFound], calls := [],
                  acquired := false, released := false } ∧
    PagePool.launch s (Except.error e) np = Except.error e ∧
    PagePool.process s handler args page =
      Except.ok { diags := [Diag.poolNotFound], calls := [],
                  acquired := false, released := false } := by
  refine ⟨?_, rfl, rfl, ?_⟩
  · simp [PagePool.launchAlt, hpool]
  · simp [PagePool.process, hpool]

/-- C2 witness: a concrete never-launched instance with a failing browser
launch. -/
theorem c2_witness :
    PagePool.launchAlt (PagePool.mkState noHooks) (Except.error "boom") { id := 0 } =
      Except.ok ({ browser := none, options := some noHooks, pool := none },
                 [Diag.browserCreateError, Diag.poolIsNotCreated]) ∧
    PagePool.process (PagePool.mkState noHooks) HandlerSlot.notFunction [] samplePage =
      Except.ok { diags := [Diag.poolNotFound], calls := [],
                  acquired := false, released := false } := by
  have h := c2_amended_launch_failure_failsoft (PagePool.mkState noHooks) "boom" { id := 0 }
    HandlerSlot.notFunction [] samplePage rfl
  exact ⟨h.1, h.2.2.2⟩

/-- C3: when minting the page fails, factory `create` returns an absent
value (no exception); when minting succeeds and the configured
`onPageCreated` hook throws, `create` still returns the page as usable
and emits exactly one diagnostic for the hook error. -/
theorem c3_create_failure_isolation
    (opts : Opts) (e : String) (p : Page)
    (hk : Page → Except String JSVal) (he : String)
    (hcfg : opts.onPageCreated = some hk) (hfail : hk p = Except.error he) :
    poolFactory.create opts (Except.error e) =
      Except.ok { result := none, diags := [Diag.createPageError] } ∧
    poolFactory.create opts (Except.ok p) =
      Except.ok { result := some p,
                  diags := [Diag.pageIsCreated, Diag.onPageCreatedError] } ∧
    (∀ t : CreateTrace, poolFactory.create opts (Except.ok p) = Except.ok t →
      t.diags.count Diag.onPageCreatedError = 1) := by
  refine ⟨rfl, ?_, ?_⟩
  · simp [poolFactory.create, hcfg, hfail]
  · intro t ht
    simp [poolFactory.create, hcfg, hfail] at ht
    simp [← ht]

/-- C3 witness: a concrete failing mint and a concrete throwing
`onPageCreated` hook. -/
theorem c3_witness :
    poolFactory.create throwingCreateOpts (Except.error "mint boom") =
      Except.ok { result := none, diags := [Diag.createPageError] } ∧
    poolFactory.create throwingCreateOpts (Except.ok samplePage) =
      Except.ok { result := some samplePage,
                  diags := [Diag.pageIsCreated, Diag.onPageCreatedError] } := by
  have h := c3_create_failure_isolation throwingCreateOpts "mint boom" samplePage
    (fun _ => Except.error "boom") "boom" rfl rfl
  exact ⟨h.1, h.2.1⟩

/-- C4: factory `validate` yields `false` for an absent page, `true` for a
present page with no `onValidate` hook configured, and `false` for a
present page whose configured `onValidate` hook throws. -/
theorem c4_validate_eligibility (opts : Opts) (p : Page) :
    poolFactory.validate opts none = (JSVal.vBool false, []) ∧
    (opts.onValidate = none →
      poolFactory.validate opts (some p) = (JSVal.vBool true, [])) ∧
    (∀ hk : Page → Except String JSVal, ∀ e : String,
      opts.onValidate = some hk → hk p = Except.error e →
      poolFactory.validate opts (some p) =
        (JSVal.vBool false, [Diag.onValidateError])) := by
  refine ⟨rfl, ?_, ?_⟩
  · intro h; simp [poolFactory.validate, h]
  · intro hk e hcfg hfail; simp [poolFactory.validate, hcfg, hfail]

/-- C4 witness: concrete absent-page, hook-free and throwing-hook cases. -/
theorem c4_witness :
    poolFactory.validate noHooks none = (JSVal.vBool false, []) ∧
    poolFactory.validate noHooks (some samplePage) = (JSVal.vBool true, []) ∧
    poolFactory.validate throwingValidateOpts (some samplePage) =
      (JSVal.vBool false, [Diag.onValidateError]) :=
  ⟨(c4_validate_eligibility noHooks samplePage).1,
   (c4_validate_eligibility noHooks samplePage).2.1 rfl,
   (c4_validate_eligibility throwingValidateOpts samplePage).2.2
     (fun _ => Except.error "boom") "boom" rfl rfl⟩

/-- C5 counterexample: a configured `onValidate` hook that completes with
the number `7` makes `validate` return `7` itself — the result is not
coerced to a boolean and the returned eligibility signal is not a
boolean. -/
theorem c5_counterexample_no_boolean_coercion :
    (poolFactory.validate validateNum7Opts (some samplePage)).1 = JSVal.vNum 7 ∧
    jsIsBool (poolFactory.validate validateNum7Opts (some samplePage)).1 = false :=
  ⟨rfl, rfl⟩

/-- C5 (amended): when a configured `onValidate` hook completes,
`validate` returns the hook's result as-is, without boolean coercion;
the returned signal is a boolean only in the cases decided by the
factory itself — absent page, no hook configured, or hook failure. -/
theorem c5_amended_validate_returns_hook_result
    (opts : Opts) (p : Page) (hk : Page → Except String JSVal) (v : JSVal)
    (hcfg : opts.onValidate = some hk) (hres : hk p = Except.ok v) :
    (poolFactory.validate opts (some p)).1 = v ∧
    (∀ o : Opts, jsIsBool (poolFactory.validate o none).1 = true) ∧
    (∀ o : Opts, o.onValidate = none →
      ∀ q : Page, jsIsBool (poolFactory.validate o (some q)).1 = true) ∧
    (∀ o : Opts, ∀ hk2 : Page → Except String JSVal, ∀ e : String,
      o.onValidate = some hk2 → ∀ q : Page, hk2 q = Except.error e →
      jsIsBool (poolFactory.validate o (some q)).1 = true) := by
  refine ⟨?_, fun o => rfl, ?_, ?_⟩
  · simp [poolFactory.validate, hcfg, hres]
  · intro o h q; simp [poolFactory.validate, h, jsIsBool]
  · intro o hk2 e hcfg2 q hfail; simp [poolFactory.validate, hcfg2, hfail, jsIsBool]

/-- C5 witness: a concrete hook completing with `true` is returned
unchanged. -/
theorem c5_witness :
    (poolFactory.validate validateTrueOpts (some samplePage)).1 = JSVal.vBool true ∧
    jsIsBool (poolFactory.validate noHooks none).1 = true := by
  have h := c5_amended_validate_returns_hook_result validateTrueOpts samplePage
    (fun _ => Except.ok (JSVal.vBool true)) (JSVal.vBool true) rfl rfl
  exact ⟨h.1, h.2.1 noHooks⟩

/-- C6: factory `destroy` with an absent page performs no operation (no
hook call, no close, no diagnostic); with a present page it invokes the
destroy hook first, a hook failure is reported but never propagated (the
call still returns `Except.ok`), `page.close()` is invoked only if the
page is still open, and the `page is destroyed` diagnostic ends the
diagnostics regardless of hook outcome. -/
theorem c6_destroy_hook_close_and_diag (opts : Opts) (p : Page) :
    poolFactory.destroy opts none =
      Except.ok { hookCalled := false, closeCalled := false, diags := [] } ∧
    (∃ t : DestroyTrace,
      poolFactory.destroy opts (some p) = Except.ok t ∧
      t.hookCalled = opts.onBeforePageDestroy.isSome ∧
      t.closeCalled = !p.closed ∧
      (∃ pre : List Diag, t.diags = pre ++ [Diag.pageIsDestroyed]) ∧
      (∀ hk : Page → Except String JSVal, ∀ e : String,
        opts.onBeforePageDestroy = some hk → hk p = Except.error e →
        Diag.onBeforePageDestroyError ∈ t.diags)) := by
  refine ⟨rfl, ⟨_, rfl, rfl, rfl, ⟨_, rfl⟩, ?_⟩⟩
  intro hk e hcfg hfail
  simp [hcfg, hfail]

/-- C6 witness: a concrete open page with a throwing destroy hook, and the
absent-page no-op. -/
theorem c6_witness :
    poolFactory.destroy noHooks none =
      Except.ok { hookCalled := false, closeCalled := false, diags := [] } ∧
    ∃ t : DestroyTrace,
      poolFactory.destroy throwingDestroyOpts (some samplePage) = Except.ok t ∧
      t.closeCalled = true ∧ Diag.onBeforePageDestroyError ∈ t.diags := by
  obtain ⟨t, ht, h1, h2, h3, h4⟩ := (c6_destroy_hook_close_and_diag throwingDestroyOpts samplePage).2
  exact ⟨(c6_destroy_hook_close_and_diag noHooks samplePage).1,
         t, ht, h2, h4 (fun _ => Except.error "boom") "boom" rfl rfl⟩

/-- C7: a `process` call violating a precondition emits exactly one
diagnostic, raises no exception, and performs no pool operation: with no
pool it emits only `pool is not found` whatever the handler is (so the
missing-pool check takes precedence over the handler check), and with a
pool but a non-callable handler it emits only `handler is not a
function`. -/
theorem c7_process_precondition_failsoft
    (s : PState) (handler : HandlerSlot) (args : List JSVal) (page : Page) :
    (s.pool = none →
      PagePool.process s handler args page =
        Except.ok { diags := [Diag.poolNotFound], calls := [],
                    acquired := false, released := false }) ∧
    (∀ ph : PoolHandle, s.pool = some ph →
      PagePool.process s HandlerSlot.notFunction args page =
        Except.ok { diags := [Diag.handlerNotFunction], calls := [],
                    acquired := false, released := false }) := by
  constructor
  · intro h; simp [PagePool.process, h]
  · intro ph h; simp [PagePool.process, h]

/-- C7 witness: a never-launched instance (with a non-callable handler,
showing precedence) and a launched instance with a non-callable
handler. -/
theorem c7_witness :
    PagePool.process (PagePool.mkState noHooks) HandlerSlot.notFunction [] samplePage =
      Except.ok { diags := [Diag.poolNotFound], calls := [],
                  acquired := false, released := false } ∧
    PagePool.process launchedState HandlerSlot.notFunction [] samplePage =
      Except.ok { diags := [Diag.handlerNotFunction], calls := [],
                  acquired := false, released := false } :=
  ⟨(c7_process_precondition_failsoft (PagePool.mkState noHooks)
      HandlerSlot.notFunction [] samplePage).1 rfl,
   (c7_process_precondition_failsoft launchedState
      HandlerSlot.notFunction [] samplePage).2 { id := 7 } rfl⟩

/-- C8: `destroy()` drains then clears the pool only when a pool exists,
then closes the browser only when a browser exists, nulls `browser`,
`options` and `pool`, and always returns the `null` sentinel; on a
never-launched instance (no pool, no browser) the event list is empty
while the state is still reset. -/
theorem c8_destroy_resets_and_orders_teardown (s : PState) :
    (PagePool.destroy s).1 = { browser := none, options := none, pool := none } ∧
    (PagePool.destroy s).2.2 = JSVal.vNull ∧
    (PagePool.destroy s).2.1.events =
      (if s.pool.isSome then [TeardownEv.poolDrain, TeardownEv.poolClear] else []) ++
      (if s.browser.isSome then [TeardownEv.browserClose] else []) := by
  obtain ⟨b, o, pl⟩ := s
  cases b <;> cases pl <;> simp [PagePool.destroy]

/-- C9: against the spec-modelled bounded pool engine, every sequence of
acquire/release operations keeps the number of simultaneously borrowed
pages at or below the configured maximum; an acquire arriving with no
idle page and the maximum already borrowed is enqueued to wait, and a
release while requests are waiting fulfils one waiting request. -/
theorem c9_borrowed_never_exceeds_max (m : Nat) (ops : List PoolOp) :
    ((PoolSt.mk0 m).run ops).borrowed ≤ m ∧
    (∀ s : PoolSt, s.idle = 0 → s.max ≤ s.borrowed →
      s.step PoolOp.acquire = { s with waiting := s.waiting + 1 }) ∧
    (∀ s : PoolSt, 0 < s.borrowed → 0 < s.waiting →
      s.step PoolOp.release = { s with waiting := s.waiting - 1 }) := by
  refine ⟨?_, ?_, ?_⟩
  · have hinv := PoolSt.run_inv ops (PoolSt.mk0 m) (by simp [PoolSt.Inv, PoolSt.mk0])
    have hmax := PoolSt.run_max ops (PoolSt.mk0 m)
    have hm : (PoolSt.mk0 m).max = m := rfl
    simp only [PoolSt.Inv] at hinv
    rw [hmax, hm] at hinv
    omega
  · intro s h1 h2
    simp only [PoolSt.step]
    rw [if_neg (by omega), if_neg (by omega)]
  · intro s h1 h2
    simp only [PoolSt.step]
    rw [if_neg (by omega), if_pos h2]

/-- C9 witness: a pool of maximum 2; three concurrent acquires borrow at
most 2, a third acquire at capacity waits, and a release fulfils the
waiter. -/
theorem c9_witness :
    ((PoolSt.mk0 2).run [PoolOp.acquire, PoolOp.acquire, PoolOp.acquire]).borrowed ≤ 2 ∧
    PoolSt.step { max := 2, borrowed := 2, idle := 0, waiting := 0 } PoolOp.acquire =
      { max := 2, borrowed := 2, idle := 0, waiting := 1 } ∧
    PoolSt.step { max := 2, borrowed := 2, idle := 0, waiting := 1 } PoolOp.release =
      { max := 2, borrowed := 2, idle := 0, waiting := 0 } := by
  have h := c9_borrowed_never_exceeds_max 2 [PoolOp.acquire, PoolOp.acquire, PoolOp.acquire]
  exact ⟨h.1, h.2.1 _ rfl (by decide), h.2.2 _ (by decide) (by decide)⟩

/-- C10: for every constructor argument the new instance has
`browser = null`, `pool = null`, and an `options` field that is always a
non-null, non-array object — the argument itself when the argument is
such an object, and the empty object otherwise (including `null`, arrays
and non-object values). -/
theorem c10_constructor_normalizes_options (arg : JSVal) :
    (PagePool.construct arg).browser = JSVal.vNull ∧
    (PagePool.construct arg).pool = JSVal.vNull ∧
    jsTypeof (PagePool.construct arg).options = "object" ∧
    jsTruthy (PagePool.construct arg).options = true ∧
    jsIsArray (PagePool.construct arg).options = false ∧
    (PagePool.construct arg).options =
      (if jsTypeof arg = "object" ∧ jsTruthy arg = true ∧ jsIsArray arg = false
       then arg else JSVal.vObj 0) := by
  cases arg <;> simp [PagePool.construct, jsTypeof, jsTruthy, jsIsArray]
